import Mathlib

/-!
Shallow embedding of the remediation server (`mcp_server.py`) of the
infra-troubleshooter repository: the status registry (`receive_report`,
`get_status`), the Elasticsearch resource locator
(`find_elasticsearch_resources`), the kubectl helpers
(`get_statefulset_replicas`, `scale_statefulset`, `kill_port_forward`,
`start_port_forward`) and the remediation orchestrator (`remediate`).

External commands (subprocess.run / Popen) are modelled by an explicit
environment of oracles giving each call's result (exit code, stdout,
stderr, or a raised exception), and every external effect (command
invocation, sleep) is recorded in a trace.  Python string operations
used by the source (strip, lower, split, replace, int()) are
re-implemented over `List Char` so that all definitions reduce in the
kernel.
-/

/-! ## String helpers (kernel-computable models of the Python string ops) -/

/-- Whitespace as Python's `str.strip` sees it (the characters occurring here). -/
def wsChar (c : Char) : Bool :=
  c = ' ' || c = '\t' || c = '\n' || c = '\r'

/-- Model of Python `str.strip()`: drop whitespace from both ends. -/
def strTrim (s : String) : String :=
  String.mk (((s.data.dropWhile wsChar).reverse.dropWhile wsChar).reverse)

/-- ASCII lower-casing of one character (all names involved are ASCII). -/
def lowerChar (c : Char) : Char :=
  if 'A' ≤ c && c ≤ 'Z' then Char.ofNat (c.toNat + 32) else c

/-- Model of Python `str.lower()` for the ASCII names the server handles. -/
def strLower (s : String) : String :=
  String.mk (s.data.map lowerChar)

/-- The property that `pat` occurs as a contiguous substring of `s`
(Python's `pat in s`). -/
def strContains (s pat : String) : Prop :=
  pat.data <:+: s.data

instance (s pat : String) : Decidable (strContains s pat) :=
  List.decidableInfix pat.data s.data

/-- Boolean form of `strContains`, used by the source's substring search. -/
def strHas (s pat : String) : Bool :=
  decide (strContains s pat)

/-- Split a character list at every newline (Python `str.split('\n')`). -/
def splitLines : List Char → List (List Char)
  | [] => [[]]
  | c :: rest =>
    if c = '\n' then [] :: splitLines rest
    else
      match splitLines rest with
      | [] => [[c]]
      | l :: ls => (c :: l) :: ls

/-- Model of Python `s.strip().split('\n')`. -/
def linesOf (s : String) : List String :=
  (splitLines (strTrim s).data).map String.mk

/-- Fuel-driven removal of every occurrence of `"service/"`
(Python `line.replace("service/", "")`). -/
def removeSvcAux : Nat → List Char → List Char
  | 0, s => s
  | _ + 1, [] => []
  | n + 1, c :: rest =>
    if ("service/".data).isPrefixOf (c :: rest) then
      removeSvcAux n (rest.drop 7)
    else
      c :: removeSvcAux n rest

/-- Model of Python `line.replace("service/", "")`. -/
def removeSvc (s : List Char) : List Char :=
  removeSvcAux (s.length + 1) s

/-- Value of a decimal digit. -/
def digitVal (c : Char) : Option Nat :=
  if '0' ≤ c && c ≤ '9' then some (c.toNat - '0'.toNat) else none

/-- Read a non-empty all-digit sequence as a number. -/
def digitsVal : List Char → Option Nat
  | [] => none
  | [c] => digitVal c
  | c :: rest =>
    match digitVal c, digitsVal rest with
    | some d, some n => some (d * 10 ^ rest.length + n)
    | _, _ => none

/-- Model of Python `int(s)` on the strings kubectl jsonpath produces:
optional sign, then decimal digits; anything else raises, modelled as
`none`. -/
def parseIntStr (s : String) : Option Int :=
  match (strTrim s).data with
  | '+' :: ds => (digitsVal ds).map Int.ofNat
  | '-' :: ds => (digitsVal ds).map (fun n => -(n : Int))
  | ds => (digitsVal ds).map Int.ofNat

/-! ## Data model: status registry and remediation history -/

/-- The per-service health state stored by `receive_report`
(`\x7bhealthy, details, consul_host\x7d` in the source). -/
structure HealthRecord where
  healthy : Bool
  details : String
  consul_host : String
deriving DecidableEq

/-- One remediation-history entry, as appended to `remediation_log`. -/
structure Entry where
  cluster : String
  service : String
  status : String
  message : String
deriving DecidableEq

/-- `CLUSTER_NAME` with its default value (no environment override). -/
def CLUSTER_NAME : String := "casbx-mgmt-plane-us-central1"

/-- The in-memory `status` dictionary: an insertion-ordered association
list from key to record, as a Python dict behaves. -/
abbrev Registry := List (String × HealthRecord)

/-- Python dict assignment `d[k] = v`: replace in place, else append. -/
def dictSet : Registry → String → HealthRecord → Registry
  | [], k, v => [(k, v)]
  | (k', v') :: rest, k, v =>
    if k' = k then (k, v) :: rest else (k', v') :: dictSet rest k v

/-- Python dict lookup `d[k]`. -/
def dictGet : Registry → String → Option HealthRecord
  | [], _ => none
  | (k', v') :: rest, k => if k' = k then some v' else dictGet rest k

/-- An incoming report body: `cluster` and `service` are accessed by
indexing (required), the rest through `.get` with defaults. -/
structure Report where
  cluster : String
  service : String
  healthy : Option Bool
  details : Option String
  consul_host : Option String
deriving DecidableEq

/-- The derived registry key `f"{report['cluster']}-{report['service']}"`. -/
def reportKey (r : Report) : String :=
  r.cluster ++ "-" ++ r.service

/-- The record `receive_report` stores: `.get` defaults are
`False`, `""` and `"N/A"`. -/
def toRecord (r : Report) : HealthRecord :=
  { healthy := r.healthy.getD false
    details := r.details.getD ""
    consul_host := r.consul_host.getD "N/A" }

/-- `receive_report`: upsert the record under the derived key and return
the new registry together with the acknowledged key. -/
def receive_report (reg : Registry) (r : Report) : Registry × String :=
  (dictSet reg (reportKey r) (toRecord r), reportKey r)

/-- Fold a sequence of reports through `receive_report`. -/
def applyReports (reg : Registry) (rs : List Report) : Registry :=
  rs.foldl (fun acc r => (receive_report acc r).1) reg

/-- The report for `k` that was received last, if any. -/
def lastFor (k : String) : List Report → Option Report
  | [] => none
  | r :: rest =>
    match lastFor k rest with
    | some x => some x
    | none => if reportKey r = k then some r else none

/-! ## `get_status`

The endpoint returns `"status": status`, the very dict object the
registry mutates, together with the aggregate counts.  To express object
identity in a pure embedding, registries live in an explicit heap (a
list of cells) and the response carries the heap index of the mapping it
hands out; `get_status` hands out the internal cell's own index. -/

/-- A heap of registry cells; the server's `status` dict is one cell. -/
abbrev Heap := List Registry

/-- The response of the `/api/status` endpoint.  `statusRef` is the heap
cell of the mapping the response exposes (the source exposes the
internal dict itself, so it is the internal cell's index). -/
structure StatusResp where
  cluster : String
  statusRef : Nat
  total_services : Nat
  healthy_services : Nat
deriving DecidableEq

/-- The number of healthy records:
`sum(1 for s in status.values() if s.get("healthy", False))`. -/
def healthyCount (reg : Registry) : Nat :=
  (reg.filter (fun p => p.2.healthy)).length

/-- `get_status`: counts computed from the internal registry at `regRef`,
and the mapping exposed by reference to that same cell. -/
def get_status (h : Heap) (regRef : Nat) : StatusResp :=
  let reg := (h.get? regRef).getD []
  { cluster := CLUSTER_NAME
    statusRef := regRef
    total_services := reg.length
    healthy_services := healthyCount reg }

/-- Mutating the mapping a response exposes: write through the heap
reference it carries. -/
def writeThrough (h : Heap) (ref : Nat) (k : String) (v : HealthRecord) : Heap :=
  h.set ref (dictSet ((h.get? ref).getD []) k v)

/-! ## External commands: results, exceptions, trace -/

/-- The result of one `subprocess.run` / `Popen` call: a completed
process (exit code, stdout, stderr), a `TimeoutExpired`, or any other
raised exception with its text. -/
inductive CmdRes where
  | ret (code : Nat) (stdout stderr : String)
  | timeoutExp
  | raised (msg : String)
deriving DecidableEq

/-- Whether a call returned (did not raise) with exit code 0. -/
def retOk : CmdRes → Bool
  | .ret 0 _ _ => true
  | _ => false

/-- The exceptions the orchestrator's outer handlers distinguish:
`subprocess.CalledProcessError` (with its stderr and exit code),
`subprocess.TimeoutExpired`, and any other `Exception` with its text. -/
inductive PyExc where
  | cpe (stderr : String) (code : Nat)
  | texp
  | other (msg : String)
deriving DecidableEq

/-- One observable external effect of the server. -/
inductive Event where
  | run (args : List String) (timeoutSec : Option Nat)
  | popenPF (args : List String)
  | sleep (sec : Nat)
deriving DecidableEq

abbrev Trace := List Event

/-! ## kubectl helpers -/

/-- `get_statefulset_replicas`: exit code 0 and non-empty stripped stdout
parse as an int; a non-zero exit, empty output, unparsable output, or
any exception (timeout included) yields 0. -/
def get_statefulset_replicas (res : CmdRes) : Int :=
  match res with
  | .ret 0 out _ =>
    if strTrim out ≠ "" then
      match parseIntStr (strTrim out) with
      | some n => n
      | none => 0
    else 0
  | _ => 0

/-- `scale_statefulset`: runs with `check=True`; a non-zero exit raises
`CalledProcessError` and any exception is caught, returning `False`. -/
def scale_statefulset (res : CmdRes) : Bool :=
  match res with
  | .ret 0 _ _ => true
  | _ => false

/-- The static `PORT_FORWARDS` table: service, namespace, service name, port. -/
def PORT_FORWARDS : List (String × String × String × Nat) :=
  [("vault", "vault", "vault", 8200),
   ("consul", "consul", "consul-server", 8500),
   ("elasticsearch", "elasticsearch", "elasticsearch-master", 9200)]

/-- The port of a service in `PORT_FORWARDS` (only queried for the three
supported services, so the fallback 0 is unreachable on executed paths). -/
def portOf (service : String) : Nat :=
  ((PORT_FORWARDS.find? (fun p => p.1 = service)).map (fun p => p.2.2.2)).getD 0

/-- `kill_port_forward`: pkill by port pattern; when the pkill call
raises, the 2s settle delay is skipped (the handler catches everything). -/
def kill_port_forward (pkillExc : Bool) (service : String) : Trace :=
  let killEv := Event.run
    ["pkill", "-f", "kubectl port-forward.*" ++ toString (portOf service)] none
  if pkillExc then [killEv] else [killEv, Event.sleep 2]

/-- How the port-forward start attempt goes: the spawned process is
still alive after the 3s check, it already died, or opening the log file
or spawning raised (caught, returning `False`). -/
inductive PFRes where
  | started
  | died
  | excAtStart
deriving DecidableEq

/-- `start_port_forward` with explicit namespace and service name (as
`remediate` always calls it): kill the old tunnel, spawn a new one,
wait 3s, and report whether the process is still running. -/
def start_port_forward (pkillExc : Bool) (pf : PFRes) (service ns svcName : String) :
    Trace × Bool :=
  let port := portOf service
  let ktr := kill_port_forward pkillExc service
  let spawnEv := Event.popenPF
    ["kubectl", "port-forward", "svc/" ++ svcName,
     toString port ++ ":" ++ toString port, "-n", ns]
  match pf with
  | .excAtStart => (ktr, false)
  | .started => (ktr ++ [spawnEv, Event.sleep 3], true)
  | .died => (ktr ++ [spawnEv, Event.sleep 3], false)

/-! ## Resource locator (`find_elasticsearch_resources`) -/

/-- The oracle for the locator's kubectl calls, indexed by detection
round (0..2) and candidate index (0..5): namespace check, StatefulSet
check, exact service check, and service listing. -/
structure LocEnv where
  ns : Nat → Nat → CmdRes
  sts : Nat → Nat → CmdRes
  svc : Nat → Nat → CmdRes
  svcList : Nat → Nat → CmdRes

/-- The fixed candidate `(namespace, statefulset, service)` tuples
(`search_configs`), duplicates included. -/
def searchConfigs : List (String × String × String) :=
  [("elasticsearch", "elasticsearch-master", "elasticsearch-master"),
   ("elasticsearch", "elasticsearch", "elasticsearch"),
   ("elasticsearch", "elasticsearch-master", "elasticsearch"),
   ("elasticsearch", "elasticsearch-master", "elasticsearch-master"),
   ("default", "elasticsearch", "elasticsearch"),
   ("logging", "elasticsearch", "elasticsearch")]

/-- First listed endpoint whose name (with `service/` stripped) contains
`elasticsearch` case-insensitively. -/
def pickEsLine : List String → Option String
  | [] => none
  | l :: rest =>
    let name := String.mk (removeSvc l.data)
    if strHas (strLower name) "elasticsearch" then some name else pickEsLine rest

/-- One candidate check of the locator.  `none` means "continue with the
next candidate": the namespace or StatefulSet is missing, or some call
raised (the per-candidate handler catches it). -/
def tryCandidate (env : LocEnv) (a i : Nat) (c : String × String × String) :
    Trace × Option (String × String × String) :=
  let ns := c.1
  let sts := c.2.1
  let svcN := c.2.2
  let t0 : Trace := [Event.run ["kubectl", "get", "namespace", ns] (some 5)]
  match env.ns a i with
  | .ret nsCode _ _ =>
    if nsCode ≠ 0 then (t0, none)
    else
      let t1 := t0 ++ [Event.run ["kubectl", "get", "statefulset", sts, "-n", ns] (some 5)]
      match env.sts a i with
      | .ret stsCode _ _ =>
        if stsCode ≠ 0 then (t1, none)
        else
          let t2 := t1 ++ [Event.run ["kubectl", "get", "service", svcN, "-n", ns] (some 5)]
          match env.svc a i with
          | .ret svcCode _ _ =>
            if svcCode = 0 then (t2, some (ns, sts, svcN))
            else
              let t3 := t2 ++ [Event.run ["kubectl", "get", "svc", "-n", ns, "-o", "name"] (some 5)]
              match env.svcList a i with
              | .ret listCode out _ =>
                if listCode = 0 then
                  match pickEsLine (linesOf out) with
                  | some name => (t3, some (ns, sts, name))
                  | none => (t3, some (ns, sts, sts))
                else (t3, some (ns, sts, sts))
              | _ => (t3, none)
          | _ => (t2, none)
      | _ => (t1, none)
  | _ => (t0, none)

/-- Scan the candidate list of one round in order, stopping at the first
hit. -/
def scanGo (env : LocEnv) (a : Nat) : Nat → List (String × String × String) →
    Trace × Option (String × String × String)
  | _, [] => ([], none)
  | i, c :: rest =>
    let tr := (tryCandidate env a i c).1
    match (tryCandidate env a i c).2 with
    | some x => (tr, some x)
    | none => (tr ++ (scanGo env a (i + 1) rest).1, (scanGo env a (i + 1) rest).2)

/-- `find_elasticsearch_resources`: up to 3 rounds over the candidate
list with a 5s pause between rounds; exhaustion returns `none`
(the source's `(None, None, None)`). -/
def find_elasticsearch_resources (env : LocEnv) :
    Trace × Option (String × String × String) :=
  let t0 := (scanGo env 0 0 searchConfigs).1
  match (scanGo env 0 0 searchConfigs).2 with
  | some x => (t0, some x)
  | none =>
    let t1 := (scanGo env 1 0 searchConfigs).1
    match (scanGo env 1 0 searchConfigs).2 with
    | some x => (t0 ++ [Event.sleep 5] ++ t1, some x)
    | none =>
      (t0 ++ [Event.sleep 5] ++ t1 ++ [Event.sleep 5] ++ (scanGo env 2 0 searchConfigs).1,
       (scanGo env 2 0 searchConfigs).2)

/-! ## Remediation orchestrator (`remediate`) -/

/-- The oracle for one `remediate` invocation's external calls:
the diagnostic `kubectl get all` listing, the locator's calls, the
common-pattern fallback checks (by index), the StatefulSet validation,
the replica read, the scale call, the rollout restart, the six readiness
polls (by index), and the port-forward lifecycle. -/
structure Env where
  getAll : CmdRes
  loc : LocEnv
  pat : Nat → CmdRes
  checkSts : CmdRes
  replicas : CmdRes
  scale : CmdRes
  rollout : CmdRes
  poll : Nat → CmdRes
  pkillExc : Bool
  pf : PFRes

/-- The `common_patterns` fallback list, its duplicate entry included. -/
def common_patterns : List (String × String) :=
  [("elasticsearch", "elasticsearch-master"),
   ("elasticsearch", "elasticsearch"),
   ("elasticsearch", "elasticsearch-master")]

/-- Scan `common_patterns`: a check that raises is skipped by the bare
`except`, a zero exit stops the scan. -/
def patGo (env : Env) : Nat → List (String × String) → Trace × Option (String × String)
  | _, [] => ([], none)
  | i, (ns, sts) :: rest =>
    let ev := Event.run ["kubectl", "get", "statefulset", sts, "-n", ns] (some 5)
    match env.pat i with
    | .ret 0 _ _ => ([ev], some (ns, sts))
    | _ => (ev :: (patGo env (i + 1) rest).1, (patGo env (i + 1) rest).2)

/-- The common-pattern fallback scan of the elasticsearch branch. -/
def tryPatterns (env : Env) : Trace × Option (String × String) :=
  patGo env 0 common_patterns

/-- The error text raised when the fallback also finds nothing:
it lists the three `common_patterns` pairs, nothing more. -/
def esNotFoundMsg : String :=
  "Elasticsearch not found. Tried these combinations:\n" ++
  "  - elasticsearch/elasticsearch-master\n" ++
  "  - elasticsearch/elasticsearch\n" ++
  "  - elasticsearch/elasticsearch-master\n" ++
  "Run 'kubectl get statefulset -A | grep -i elastic' to find it manually."

/-- The scale command of the rescale-if-zero stage. -/
def scaleEvent (sts ns : String) (d : Int) : Event :=
  Event.run ["kubectl", "scale", "statefulset", sts, "-n", ns,
    "--replicas=" ++ toString d] (some 30)

/-- The rollout-restart command. -/
def rolloutEvent (sts ns : String) : Event :=
  Event.run ["kubectl", "rollout", "restart", "statefulset/" ++ sts, "-n", ns]
    (some 60)

/-- One readiness-poll command. -/
def pollEvent (svcN ns : String) : Event :=
  Event.run ["kubectl", "get", "svc", svcN, "-n", ns] (some 5)

/-- The StatefulSet validation command of the orchestrator. -/
def checkStsEvent (sts ns : String) : Event :=
  Event.run ["kubectl", "get", "statefulset", sts, "-n", ns] (some 10)

/-- The replica-count read command. -/
def replicasEvent (sts ns : String) : Event :=
  Event.run ["kubectl", "get", "statefulset", sts, "-n", ns,
    "-o", "jsonpath=\x7b.spec.replicas\x7d"] (some 10)

/-- The warm-up delay after a rescale from zero. -/
def warmUp (service : String) : Nat :=
  if service = "elasticsearch" then 60 else 30

/-- The fixed delay after the rollout restart. -/
def rolloutWait (service : String) : Nat :=
  if service = "elasticsearch" then 90 else 30

/-- The readiness-poll loop (`for i in range(6)`): stop at the first
zero exit, otherwise sleep 10s after each try, a raising check counting
as a failed one. -/
def pollGo (env : Env) (svcN ns : String) : Nat → Nat → Trace
  | _, 0 => []
  | i, rem + 1 =>
    pollEvent svcN ns ::
      match env.poll i with
      | .ret 0 _ _ => []
      | _ => Event.sleep 10 :: pollGo env svcN ns (i + 1) rem

/-- The trace of the await-ready stage. -/
def pollTrace (env : Env) (svcN ns : String) : Trace :=
  pollGo env svcN ns 0 6

/-- The success message assembled at the end of `remediate`. -/
def successMessage (service ns sts : String) (current d : Int) (pfOk : Bool) : String :=
  "Remediation completed for " ++ service ++ "." ++
  (if current = 0 then
    " Scaled from 0 to " ++ toString d ++ " replicas and restarted."
   else " Performed rolling restart.") ++
  (if pfOk then
    " Port-forward restarted on port " ++ toString (portOf service) ++ "."
   else " Warning: Failed to restart port-forward - you may need to restart manually.") ++
  " Found in namespace: " ++ ns ++ " as StatefulSet: " ++ sts ++ "."

/-- The tail of a remediation attempt from the rollout restart on:
restart (raising on failure), fixed wait, best-effort readiness polls,
port-forward restore, and the success entry. -/
def afterScale (env : Env) (service ns sts svcN : String) (current d : Int)
    (tr : Trace) : Trace × Except PyExc (List Entry) :=
  let tr1 := tr ++ [rolloutEvent sts ns]
  match env.rollout with
  | .timeoutExp => (tr1, .error .texp)
  | .raised m => (tr1, .error (.other m))
  | .ret code _ errS =>
    if code ≠ 0 then (tr1, .error (.cpe errS code))
    else
      let tr2 := tr1 ++ [Event.sleep (rolloutWait service)] ++ pollTrace env svcN ns
      let pfr := start_port_forward env.pkillExc env.pf service ns svcN
      (tr2 ++ pfr.1,
       .ok [{ cluster := CLUSTER_NAME, service := service, status := "success",
              message := successMessage service ns sts current d pfr.2 }])

/-- The middle of a remediation attempt once names are resolved:
validate the StatefulSet, read replicas, rescale from zero when needed
(with warm-up), then hand over to `afterScale`. -/
def remediateCore (env : Env) (service ns sts svcN : String) (d : Int)
    (tr0 : Trace) : Trace × Except PyExc (List Entry) :=
  let tr := tr0 ++ [checkStsEvent sts ns]
  match env.checkSts with
  | .timeoutExp => (tr, .error .texp)
  | .raised m => (tr, .error (.other m))
  | .ret code _ errS =>
    if code ≠ 0 then
      (tr, .error (.other ("StatefulSet " ++ sts ++ " not found in namespace " ++
        ns ++ ". Error: " ++ strTrim errS)))
    else
      let tr := tr ++ [replicasEvent sts ns]
      let current := get_statefulset_replicas env.replicas
      if current = 0 then
        let tr := tr ++ [scaleEvent sts ns d]
        if scale_statefulset env.scale then
          afterScale env service ns sts svcN current d
            (tr ++ [Event.sleep (warmUp service)])
        else (tr, .error (.other ("Failed to scale " ++ service ++ " back up")))
      else afterScale env service ns sts svcN current d tr

/-- The diagnostic `kubectl get all -n elasticsearch` listing at the top
of the elasticsearch branch; its result only feeds logging. -/
def getAllEvent : Event :=
  Event.run ["kubectl", "get", "all", "-n", "elasticsearch"] (some 10)

/-- The body of `remediate` (inside the outer try):  resolve the
service's names (statically, or dynamically for elasticsearch), or
short-circuit unsupported services to a failed history entry. -/
def remediateBody (env : Env) (service : String) : Trace × Except PyExc (List Entry) :=
  if service = "vault" then
    remediateCore env service "vault" "vault" "vault" 1 []
  else if service = "consul" then
    remediateCore env service "consul" "consul-server" "consul-server" 3 []
  else if service = "elasticsearch" then
    let ltr := (find_elasticsearch_resources env.loc).1
    match (find_elasticsearch_resources env.loc).2 with
    | some (ns, sts, svcN) =>
      remediateCore env service ns sts svcN 3 ([getAllEvent] ++ ltr)
    | none =>
      let ptr := (tryPatterns env).1
      match (tryPatterns env).2 with
      | some (ns, sts) =>
        remediateCore env service ns sts sts 3 ([getAllEvent] ++ ltr ++ ptr)
      | none => ([getAllEvent] ++ ltr ++ ptr, .error (.other esNotFoundMsg))
  else
    ([], .ok [{ cluster := CLUSTER_NAME, service := service, status := "failed",
                message := "No remediation implemented for service '" ++ service ++ "'" }])

/-- The message of the failed entry each outer `except` clause appends.
For `CalledProcessError`, `str(e)` is modelled by its fixed exit-status
text. -/
def excMessage : PyExc → String
  | .cpe stderr code =>
    "Kubectl command failed: " ++
    (if stderr ≠ "" then strTrim stderr
     else "Command returned non-zero exit status " ++ toString code ++ ".")
  | .texp => "Remediation command timed out"
  | .other m => "Unexpected error during remediation: " ++ m

/-- `remediate`: run the body; any raised exception is caught at this
boundary and converted into one failed history entry.  The returned list
holds exactly the entries this invocation appends to `remediation_log`. -/
def remediate (env : Env) (service : String) : Trace × List Entry :=
  ((remediateBody env service).1,
   match (remediateBody env service).2 with
   | .ok es => es
   | .error e =>
     [{ cluster := CLUSTER_NAME, service := service, status := "failed",
        message := excMessage e }])

/-! ## Derived predicates and concrete environments used by the claims -/

/-- A trace event that is a `kubectl scale` invocation. -/
def isScaleCmd : Event → Bool
  | .run ("kubectl" :: "scale" :: _) _ => true
  | _ => false

/-- A trace event that is a delay. -/
def isSleep : Event → Bool
  | .sleep _ => true
  | _ => false

/-- A call that returned normally (any exit code), i.e. raised nothing. -/
def isRet : CmdRes → Bool
  | .ret _ _ _ => true
  | _ => false

/-- How `remediate service` reaches `remediateCore` with concrete names:
the static configurations of vault and consul, or for elasticsearch a
successful dynamic detection or common-pattern fallback, with the trace
prefix accumulated on the way. -/
def resolvesTo (env : Env) (service ns sts svcN : String) (d : Int) (pre : Trace) : Prop :=
  (service = "vault" ∧ ns = "vault" ∧ sts = "vault" ∧ svcN = "vault" ∧
    d = 1 ∧ pre = []) ∨
  (service = "consul" ∧ ns = "consul" ∧ sts = "consul-server" ∧
    svcN = "consul-server" ∧ d = 3 ∧ pre = []) ∨
  (service = "elasticsearch" ∧ d = 3 ∧
    (((find_elasticsearch_resources env.loc).2 = some (ns, sts, svcN) ∧
        pre = [getAllEvent] ++ (find_elasticsearch_resources env.loc).1) ∨
     ((find_elasticsearch_resources env.loc).2 = none ∧
        (tryPatterns env).2 = some (ns, sts) ∧ svcN = sts ∧
        pre = [getAllEvent] ++ (find_elasticsearch_resources env.loc).1 ++
          (tryPatterns env).1)))

/-- A command result that completed with exit 0 and empty output. -/
def okCmd : CmdRes := CmdRes.ret 0 "" ""

/-- A command result that completed with exit 1. -/
def failCmd : CmdRes := CmdRes.ret 1 "" "error: not found"

/-- A locator oracle in which no namespace check ever succeeds. -/
def locFail : LocEnv :=
  { ns := fun _ _ => failCmd, sts := fun _ _ => failCmd,
    svc := fun _ _ => failCmd, svcList := fun _ _ => failCmd }

/-- A locator oracle in which every check succeeds at once. -/
def locAllOk : LocEnv :=
  { ns := fun _ _ => okCmd, sts := fun _ _ => okCmd,
    svc := fun _ _ => okCmd, svcList := fun _ _ => okCmd }

/-- A fully healthy remediation environment for vault with the workload
scaled to zero. -/
def envVaultZero : Env :=
  { getAll := okCmd, loc := locFail, pat := fun _ => failCmd,
    checkSts := okCmd, replicas := CmdRes.ret 0 "0" "",
    scale := okCmd, rollout := okCmd, poll := fun _ => okCmd,
    pkillExc := false, pf := PFRes.started }

/-- An environment in which nothing exists: dynamic detection and the
common-pattern fallback both come up empty. -/
def envNotFound : Env :=
  { getAll := failCmd, loc := locFail, pat := fun _ => failCmd,
    checkSts := failCmd, replicas := failCmd,
    scale := failCmd, rollout := failCmd, poll := fun _ => failCmd,
    pkillExc := false, pf := PFRes.excAtStart }

/-! ## Basic registry lemmas -/

theorem dictGet_dictSet_self (l : Registry) (k : String) (v : HealthRecord) :
    dictGet (dictSet l k v) k = some v := by
  induction l with
  | nil => simp [dictSet, dictGet]
  | cons p rest ih =>
    by_cases h : p.1 = k
    · simp [dictSet, dictGet, h]
    · simp [dictSet, dictGet, h, ih]

theorem dictGet_dictSet_ne (l : Registry) (k k' : String) (v : HealthRecord)
    (h : k ≠ k') : dictGet (dictSet l k v) k' = dictGet l k' := by
  induction l with
  | nil => simp [dictSet, dictGet, h]
  | cons p rest ih =>
    by_cases hp : p.1 = k
    · simp [dictSet, dictGet, hp, h]
    · simp [dictSet, dictGet, hp, ih]

/-- C7: after any sequence of reports, each key holds exactly the record
of the most recent report whose derived key is that key; keys no report
touched keep their prior record (so distinct keys do not affect each
other). -/
theorem spec_C7_last_write_wins (init : Registry) (rs : List Report) (k : String) :
    dictGet (applyReports init rs) k =
      match lastFor k rs with
      | some r => some (toRecord r)
      | none => dictGet init k := by
  induction rs generalizing init with
  | nil => simp [applyReports, lastFor]
  | cons r rest ih =>
    have hstep : applyReports init (r :: rest) =
        applyReports (dictSet init (reportKey r) (toRecord r)) rest := by
      simp [applyReports, receive_report]
    rw [hstep, ih]
    cases h : lastFor k rest with
    | some x => simp [lastFor, h]
    | none =>
      by_cases hk : reportKey r = k
      · subst hk
        simp [lastFor, h, dictGet_dictSet_self]
      · simp [lastFor, h, hk, dictGet_dictSet_ne _ _ _ _ hk]

/-- The heap, registry and record of the C9 counterexample. -/
def heapC9 : Heap :=
  [[("c1-vault", { healthy := false, details := "status 500", consul_host := "N/A" })]]

def recC9 : HealthRecord := { healthy := true, details := "", consul_host := "N/A" }

/-- C9 counterexample: writing through the mapping reference that
`get_status` hands out changes the registry's internal cell, refuting
"mutations made through the returned value never alter the registry's
internal mapping" — the source returns the internal dict itself, not a
copy. -/
theorem spec_C9_counterexample :
    (writeThrough heapC9 (get_status heapC9 0).statusRef "c1-vault" recC9).get? 0 ≠
      heapC9.get? 0 := by
  decide

/-- C9 amended: the aggregate counts are the registry's size and its
number of healthy records, but the returned mapping aliases the internal
storage (`statusRef` is the internal cell itself), so mutating through
the returned value mutates the registry. -/
theorem spec_C9_amended (reg : Registry) (k : String) (v : HealthRecord) :
    (get_status [reg] 0).total_services = reg.length ∧
    (get_status [reg] 0).healthy_services = (reg.filter (fun p => p.2.healthy)).length ∧
    (get_status [reg] 0).statusRef = 0 ∧
    writeThrough [reg] (get_status [reg] 0).statusRef k v = [dictSet reg k v] :=
  ⟨rfl, rfl, rfl, rfl⟩

/-! ## Helper lemmas about the orchestrator -/

deriving instance DecidableEq for Except

theorem retOk_iff (r : CmdRes) : retOk r = true ↔ ∃ o e, r = CmdRes.ret 0 o e := by
  cases r with
  | ret c o e =>
    cases c with
    | zero => simp [retOk]
    | succ n => simp [retOk]
  | timeoutExp => simp [retOk]
  | raised m => simp [retOk]

theorem scale_eq_retOk (r : CmdRes) : scale_statefulset r = retOk r := by
  cases r with
  | ret c o e => cases c <;> rfl
  | timeoutExp => rfl
  | raised m => rfl

theorem strApp_ne_empty (s t : String) (h : s.data ≠ []) : s ++ t ≠ "" := by
  intro hEq
  have h2 := congrArg String.data hEq
  rw [String.data_append] at h2
  exact h ((List.append_eq_nil.mp h2).1)

theorem excMessage_ne_empty (e : PyExc) : excMessage e ≠ "" := by
  cases e with
  | cpe stderr code =>
    exact strApp_ne_empty _ _ (by decide)
  | texp => decide
  | other m =>
    exact strApp_ne_empty _ _ (by decide)

theorem afterScale_ok (env : Env) (service ns sts svcN : String) (cur d : Int)
    (tr : Trace) (o e : String) (hroll : env.rollout = CmdRes.ret 0 o e) :
    afterScale env service ns sts svcN cur d tr =
      (tr ++ [rolloutEvent sts ns, Event.sleep (rolloutWait service)] ++
         pollTrace env svcN ns ++
         (start_port_forward env.pkillExc env.pf service ns svcN).1,
       Except.ok [{ cluster := CLUSTER_NAME, service := service,
                    status := "success",
                    message := successMessage service ns sts cur d
                      (start_port_forward env.pkillExc env.pf service ns svcN).2 }]) := by
  simp [afterScale, hroll]

theorem afterScale_cases (env : Env) (service ns sts svcN : String) (cur d : Int)
    (tr : Trace) :
    (∃ ex, (afterScale env service ns sts svcN cur d tr).2 = Except.error ex) ∨
    (∃ b, (afterScale env service ns sts svcN cur d tr).2 =
      Except.ok [{ cluster := CLUSTER_NAME, service := service,
                   status := "success",
                   message := successMessage service ns sts cur d b }]) := by
  cases hroll : env.rollout with
  | ret code o e =>
    by_cases hc : code = 0
    · subst hc
      right
      exact ⟨_, by rw [afterScale_ok env service ns sts svcN cur d tr o e hroll]⟩
    · left
      exact ⟨PyExc.cpe e code, by simp [afterScale, hroll, hc]⟩
  | timeoutExp => exact Or.inl ⟨PyExc.texp, by simp [afterScale, hroll]⟩
  | raised m => exact Or.inl ⟨PyExc.other m, by simp [afterScale, hroll]⟩

theorem remediateCore_zero_scaleOk (env : Env) (service ns sts svcN : String)
    (d : Int) (tr0 : Trace) (o e o2 e2 : String)
    (hchk : env.checkSts = CmdRes.ret 0 o e)
    (hrep : get_statefulset_replicas env.replicas = 0)
    (hscale : env.scale = CmdRes.ret 0 o2 e2) :
    remediateCore env service ns sts svcN d tr0 =
      afterScale env service ns sts svcN 0 d
        (tr0 ++ [checkStsEvent sts ns, replicasEvent sts ns, scaleEvent sts ns d,
          Event.sleep (warmUp service)]) := by
  simp [remediateCore, hchk, hrep, scale_statefulset, hscale]

theorem remediateCore_zero_scaleFail (env : Env) (service ns sts svcN : String)
    (d : Int) (tr0 : Trace) (o e : String)
    (hchk : env.checkSts = CmdRes.ret 0 o e)
    (hrep : get_statefulset_replicas env.replicas = 0)
    (hscale : scale_statefulset env.scale = false) :
    remediateCore env service ns sts svcN d tr0 =
      (tr0 ++ [checkStsEvent sts ns, replicasEvent sts ns, scaleEvent sts ns d],
       Except.error (PyExc.other ("Failed to scale " ++ service ++ " back up"))) := by
  simp [remediateCore, hchk, hrep, hscale]

theorem remediateCore_nonzero (env : Env) (service ns sts svcN : String)
    (d : Int) (tr0 : Trace) (o e : String)
    (hchk : env.checkSts = CmdRes.ret 0 o e)
    (hrep : get_statefulset_replicas env.replicas ≠ 0) :
    remediateCore env service ns sts svcN d tr0 =
      afterScale env service ns sts svcN (get_statefulset_replicas env.replicas) d
        (tr0 ++ [checkStsEvent sts ns, replicasEvent sts ns]) := by
  simp [remediateCore, hchk, hrep]

theorem remediateCore_cases (env : Env) (service ns sts svcN : String)
    (d : Int) (tr0 : Trace) :
    (∃ ex, (remediateCore env service ns sts svcN d tr0).2 = Except.error ex) ∨
    (∃ m, (remediateCore env service ns sts svcN d tr0).2 =
      Except.ok [{ cluster := CLUSTER_NAME, service := service,
                   status := "success", message := m }]) := by
  cases hchk : env.checkSts with
  | ret code o e =>
    by_cases hc : code = 0
    · subst hc
      by_cases hrep : get_statefulset_replicas env.replicas = 0
      · by_cases hscale : scale_statefulset env.scale = true
        · obtain ⟨o2, e2, hs2⟩ := (retOk_iff env.scale).mp (by rw [← scale_eq_retOk]; exact hscale)
          rw [remediateCore_zero_scaleOk env service ns sts svcN d tr0 o e o2 e2 hchk hrep hs2]
          rcases afterScale_cases env service ns sts svcN 0 d
              (tr0 ++ [checkStsEvent sts ns, replicasEvent sts ns, scaleEvent sts ns d,
                Event.sleep (warmUp service)]) with ⟨ex, hx⟩ | ⟨b, hb⟩
          · exact Or.inl ⟨ex, hx⟩
          · exact Or.inr ⟨_, hb⟩
        · rw [remediateCore_zero_scaleFail env service ns sts svcN d tr0 o e hchk hrep
            (by simpa using hscale)]
          exact Or.inl ⟨_, rfl⟩
      · rw [remediateCore_nonzero env service ns sts svcN d tr0 o e hchk hrep]
        rcases afterScale_cases env service ns sts svcN
            (get_statefulset_replicas env.replicas) d
            (tr0 ++ [checkStsEvent sts ns, replicasEvent sts ns]) with ⟨ex, hx⟩ | ⟨b, hb⟩
        · exact Or.inl ⟨ex, hx⟩
        · exact Or.inr ⟨_, hb⟩
    · exact Or.inl ⟨PyExc.other ("StatefulSet " ++ sts ++ " not found in namespace " ++
        ns ++ ". Error: " ++ strTrim e), by simp [remediateCore, hchk, hc]⟩
  | timeoutExp => exact Or.inl ⟨PyExc.texp, by simp [remediateCore, hchk]⟩
  | raised m => exact Or.inl ⟨PyExc.other m, by simp [remediateCore, hchk]⟩

theorem remediateBody_resolved (env : Env) (service ns sts svcN : String)
    (d : Int) (pre : Trace) (h : resolvesTo env service ns sts svcN d pre) :
    remediateBody env service = remediateCore env service ns sts svcN d pre := by
  rcases h with ⟨hs, hns, hsts, hsvc, hd, hpre⟩ |
    ⟨hs, hns, hsts, hsvc, hd, hpre⟩ | ⟨hs, hd, hrest⟩
  · subst hs hns hsts hsvc hd hpre
    simp [remediateBody]
  · subst hs hns hsts hsvc hd hpre
    simp [remediateBody]
  · subst hs hd
    rcases hrest with ⟨hfind, hpre⟩ | ⟨hfind, hpat, hsvc, hpre⟩
    · subst hpre
      simp [remediateBody, hfind]
    · subst hsvc hpre
      simp [remediateBody, hfind, hpat]

theorem remediate_fst (env : Env) (service : String) :
    (remediate env service).1 = (remediateBody env service).1 := rfl

theorem remediate_of_ok (env : Env) (service : String) (es : List Entry)
    (h : (remediateBody env service).2 = Except.ok es) :
    (remediate env service).2 = es := by
  simp [remediate, h]

theorem remediate_of_error (env : Env) (service : String) (ex : PyExc)
    (h : (remediateBody env service).2 = Except.error ex) :
    (remediate env service).2 =
      [{ cluster := CLUSTER_NAME, service := service,
         status := "failed", message := excMessage ex }] := by
  simp [remediate, h]

theorem remediateBody_cases (env : Env) (service : String) :
    (∃ ex, (remediateBody env service).2 = Except.error ex) ∨
    (∃ m, (remediateBody env service).2 =
      Except.ok [{ cluster := CLUSTER_NAME, service := service,
                   status := "success", message := m }]) ∨
    (remediateBody env service).2 =
      Except.ok [{ cluster := CLUSTER_NAME, service := service, status := "failed",
                   message := "No remediation implemented for service '" ++ service ++ "'" }] := by
  by_cases h1 : service = "vault"
  · subst h1
    rcases remediateCore_cases env "vault" "vault" "vault" "vault" 1 [] with ⟨ex, hx⟩ | ⟨m, hm⟩
    · exact Or.inl ⟨ex, by simpa [remediateBody] using hx⟩
    · exact Or.inr (Or.inl ⟨m, by simpa [remediateBody] using hm⟩)
  · by_cases h2 : service = "consul"
    · subst h2
      rcases remediateCore_cases env "consul" "consul" "consul-server" "consul-server" 3 []
        with ⟨ex, hx⟩ | ⟨m, hm⟩
      · exact Or.inl ⟨ex, by simpa [remediateBody] using hx⟩
      · exact Or.inr (Or.inl ⟨m, by simpa [remediateBody] using hm⟩)
    · by_cases h3 : service = "elasticsearch"
      · subst h3
        cases hfind : (find_elasticsearch_resources env.loc).2 with
        | some x =>
          rcases remediateCore_cases env "elasticsearch" x.1 x.2.1 x.2.2 3
              ([getAllEvent] ++ (find_elasticsearch_resources env.loc).1)
            with ⟨ex, hx⟩ | ⟨m, hm⟩
          · exact Or.inl ⟨ex, by simpa [remediateBody, hfind] using hx⟩
          · exact Or.inr (Or.inl ⟨m, by simpa [remediateBody, hfind] using hm⟩)
        | none =>
          cases hpat : (tryPatterns env).2 with
          | some y =>
            rcases remediateCore_cases env "elasticsearch" y.1 y.2 y.2 3
                ([getAllEvent] ++ (find_elasticsearch_resources env.loc).1 ++
                  (tryPatterns env).1)
              with ⟨ex, hx⟩ | ⟨m, hm⟩
            · exact Or.inl ⟨ex, by simpa [remediateBody, hfind, hpat] using hx⟩
            · exact Or.inr (Or.inl ⟨m, by simpa [remediateBody, hfind, hpat] using hm⟩)
          | none =>
            exact Or.inl ⟨PyExc.other esNotFoundMsg,
              by simp [remediateBody, hfind, hpat]⟩
      · exact Or.inr (Or.inr (by simp [remediateBody, h1, h2, h3]))

/-- C1: every completed invocation of `remediate` appends exactly one
history entry, whose status is success or failed, a failed entry always
carrying a non-empty error message; and every exception the body raises
(checked-command non-zero exit, timeout, or any other exception) is
caught at this boundary and converted into exactly that one failed
entry.  No exception escapes: `remediate` is total by construction. -/
theorem spec_C1_boundary (env : Env) (service : String) :
    (∃ e : Entry, (remediate env service).2 = [e] ∧ e.cluster = CLUSTER_NAME ∧
      e.service = service ∧
      (e.status = "success" ∨ (e.status = "failed" ∧ e.message ≠ ""))) ∧
    (∀ ex, (remediateBody env service).2 = Except.error ex →
      (remediate env service).2 =
        [{ cluster := CLUSTER_NAME, service := service,
           status := "failed", message := excMessage ex }] ∧ excMessage ex ≠ "") := by
  constructor
  · rcases remediateBody_cases env service with ⟨ex, hx⟩ | ⟨m, hm⟩ | hu
    · exact ⟨{ cluster := CLUSTER_NAME, service := service, status := "failed",
               message := excMessage ex },
        remediate_of_error env service ex hx, rfl, rfl,
        Or.inr ⟨rfl, excMessage_ne_empty ex⟩⟩
    · exact ⟨{ cluster := CLUSTER_NAME, service := service, status := "success",
               message := m },
        remediate_of_ok env service _ hm, rfl, rfl, Or.inl rfl⟩
    · refine ⟨{ cluster := CLUSTER_NAME, service := service, status := "failed",
                message := "No remediation implemented for service '" ++ service ++ "'" },
        remediate_of_ok env service _ hu, rfl, rfl, Or.inr ⟨rfl, ?_⟩⟩
      apply strApp_ne_empty
      rw [String.data_append]
      intro hh
      exact absurd (List.append_eq_nil.mp hh).1 (by decide)
  · intro ex hx
    exact ⟨remediate_of_error env service ex hx, excMessage_ne_empty ex⟩

set_option maxRecDepth 8192 in
/-- C1 witness: a concrete invocation whose body raises (nothing exists
in the cluster) is converted into the single failed entry. -/
theorem spec_C1_witness :
    (remediateBody envNotFound "elasticsearch").2 =
      Except.error (PyExc.other esNotFoundMsg) ∧
    (remediate envNotFound "elasticsearch").2 =
      [{ cluster := CLUSTER_NAME, service := "elasticsearch", status := "failed",
         message := excMessage (PyExc.other esNotFoundMsg) }] :=
  ⟨by decide,
   ((spec_C1_boundary envNotFound "elasticsearch").2
     (PyExc.other esNotFoundMsg) (by decide)).1⟩

/-- C3: an unsupported service name short-circuits to one failed entry
with the fixed "no remediation implemented" message naming the service,
with an empty trace: no kubectl or tunnel command is invoked. -/
theorem spec_C3_unsupported (env : Env) (service : String)
    (h1 : service ≠ "vault") (h2 : service ≠ "consul")
    (h3 : service ≠ "elasticsearch") :
    remediate env service =
      ([], [{ cluster := CLUSTER_NAME, service := service, status := "failed",
              message := "No remediation implemented for service '" ++ service ++ "'" }]) := by
  simp [remediate, remediateBody, h1, h2, h3]

/-- C3 witness: remediating `redis` touches nothing and fails with the
fixed message. -/
theorem spec_C3_witness :
    remediate envVaultZero "redis" =
      ([], [{ cluster := CLUSTER_NAME, service := "redis", status := "failed",
              message := "No remediation implemented for service 'redis'" }]) :=
  spec_C3_unsupported envVaultZero "redis" (by decide) (by decide) (by decide)

/-! ## Trace-shape lemmas -/

/-- A locator-style event: a `kubectl get ...` call with the 5s timeout. -/
def benign5 : Event → Bool
  | .run ("kubectl" :: "get" :: _) (some 5) => true
  | _ => false

theorem benign5_not_scale (ev : Event) (h : benign5 ev = true) :
    isScaleCmd ev = false := by
  unfold benign5 at h
  split at h
  · rfl
  · simp at h

theorem benign5_not_sleep (ev : Event) (h : benign5 ev = true) :
    isSleep ev = false := by
  unfold benign5 at h
  split at h
  · rfl
  · simp at h

theorem benign5_timeout (ev : Event) (h : benign5 ev = true) :
    ∀ args t, ev = Event.run args t → t = some 5 := by
  unfold benign5 at h
  split at h
  · intro args t ht
    cases ht
    rfl
  · simp at h

theorem tryCandidate_benign (env : LocEnv) (a i : Nat) (c : String × String × String) :
    ((tryCandidate env a i c).1).all benign5 = true := by
  unfold tryCandidate
  repeat' split
  all_goals rfl

theorem scanGo_benign (env : LocEnv) (a : Nat) (l : List (String × String × String)) :
    ∀ i, ((scanGo env a i l).1).all benign5 = true := by
  induction l with
  | nil => intro i; rfl
  | cons c rest ih =>
    intro i
    simp only [scanGo]
    split
    · exact tryCandidate_benign env a i c
    · rw [List.all_append]
      rw [Bool.and_eq_true]
      exact ⟨tryCandidate_benign env a i c, ih (i + 1)⟩

theorem patGo_benign (env : Env) (l : List (String × String)) :
    ∀ i, ((patGo env i l).1).all benign5 = true := by
  induction l with
  | nil => intro i; rfl
  | cons p rest ih =>
    intro i
    simp only [patGo]
    split
    · rfl
    · rename_i hne
      simp only [List.all_cons]
      rw [Bool.and_eq_true]
      exact ⟨rfl, ih (i + 1)⟩

theorem find_mem (env : LocEnv) (ev : Event)
    (h : ev ∈ (find_elasticsearch_resources env).1) :
    benign5 ev = true ∨ ev = Event.sleep 5 := by
  have hb : ∀ a i, ev ∈ (scanGo env a i searchConfigs).1 → benign5 ev = true := by
    intro a i hm
    exact List.all_eq_true.mp (scanGo_benign env a searchConfigs i) ev hm
  unfold find_elasticsearch_resources at h
  split at h
  · exact Or.inl (hb 0 0 h)
  · split at h
    · simp only [List.append_assoc, List.mem_append, List.mem_singleton] at h
      rcases h with h | h | h
      · exact Or.inl (hb 0 0 h)
      · exact Or.inr h
      · exact Or.inl (hb 1 0 h)
    · simp only [List.append_assoc, List.mem_append, List.mem_singleton] at h
      rcases h with h | h | h | h | h
      · exact Or.inl (hb 0 0 h)
      · exact Or.inr h
      · exact Or.inl (hb 1 0 h)
      · exact Or.inr h
      · exact Or.inl (hb 2 0 h)

theorem pollGo_mem (env : Env) (svcN ns : String) (ev : Event) :
    ∀ rem i, ev ∈ pollGo env svcN ns i rem →
      ev = pollEvent svcN ns ∨ ev = Event.sleep 10 := by
  intro rem
  induction rem with
  | zero => intro i h; exact absurd h (List.not_mem_nil ev)
  | succ n ih =>
    intro i h
    simp only [pollGo] at h
    rcases List.mem_cons.mp h with h | h
    · exact Or.inl h
    · split at h
      · exact absurd h (List.not_mem_nil ev)
      · rcases List.mem_cons.mp h with h | h
        · exact Or.inr h
        · exact ih (i + 1) h

theorem kill_no_scale (k : Bool) (service : String) (ev : Event)
    (h : ev ∈ kill_port_forward k service) : isScaleCmd ev = false := by
  cases k
  · simp [kill_port_forward] at h
    rcases h with rfl | rfl <;> rfl
  · simp [kill_port_forward] at h
    subst h
    rfl

theorem pf_no_scale (k : Bool) (pf : PFRes) (service ns svcN : String) (ev : Event)
    (h : ev ∈ (start_port_forward k pf service ns svcN).1) :
    isScaleCmd ev = false := by
  cases pf <;> simp only [start_port_forward, List.mem_append, List.mem_cons,
    List.mem_singleton, List.not_mem_nil, or_false] at h
  · rcases h with h | rfl | rfl
    · exact kill_no_scale k service ev h
    · rfl
    · rfl
  · rcases h with h | rfl | rfl
    · exact kill_no_scale k service ev h
    · rfl
    · rfl
  · exact kill_no_scale k service ev h

/-! ## Substring helpers -/

theorem strContains_here (a pat b : String) : strContains (a ++ pat ++ b) pat :=
  ⟨a.data, b.data, by simp [String.data_append]⟩

theorem strContains_appR (s t pat : String) (h : strContains t pat) :
    strContains (s ++ t) pat := by
  obtain ⟨x, y, hxy⟩ := h
  exact ⟨s.data ++ x, y, by rw [String.data_append, ← hxy]; simp⟩

theorem successMessage_scaled_contains (s ns sts : String) (d : Int) (b : Bool) :
    strContains (successMessage s ns sts 0 d b) ("Scaled from 0 to " ++ toString d) := by
  have hkey : ∀ X : String, "." ++ (" Scaled from 0 to " ++ X) =
      ". " ++ ("Scaled from 0 to " ++ X) := by
    intro X
    rw [← String.append_assoc, ← String.append_assoc]
    have hlit : ("." ++ " Scaled from 0 to " : String) = ". " ++ "Scaled from 0 to " := by
      decide
    rw [hlit]
  have hmsg : successMessage s ns sts 0 d b =
      ("Remediation completed for " ++ s ++ "." ++ " ") ++
      ("Scaled from 0 to " ++ toString d) ++
      (" replicas and restarted." ++
        (if b then " Port-forward restarted on port " ++ toString (portOf s) ++ "."
         else " Warning: Failed to restart port-forward - you may need to restart manually.") ++
        " Found in namespace: " ++ ns ++ " as StatefulSet: " ++ sts ++ ".") := by
    simp [successMessage, String.append_assoc, hkey]
  rw [hmsg]
  exact strContains_here _ _ _

theorem successMessage_warning_contains (s ns sts : String) (cur d : Int) :
    strContains (successMessage s ns sts cur d false)
      "Warning: Failed to restart port-forward" := by
  have hkeyW : ∀ X : String,
      " Warning: Failed to restart port-forward - you may need to restart manually. Found in namespace: " ++ X =
      (" " ++ "Warning: Failed to restart port-forward") ++
      (" - you may need to restart manually. Found in namespace: " ++ X) := by
    intro X
    have hlit : (" Warning: Failed to restart port-forward - you may need to restart manually. Found in namespace: " : String) =
        (" " ++ "Warning: Failed to restart port-forward") ++
        " - you may need to restart manually. Found in namespace: " := by decide
    rw [hlit, String.append_assoc]
  have hmsg : successMessage s ns sts cur d false =
      ("Remediation completed for " ++ s ++ "." ++
        (if cur = 0 then " Scaled from 0 to " ++ toString d ++ " replicas and restarted."
         else " Performed rolling restart.") ++ " ") ++
      "Warning: Failed to restart port-forward" ++
      (" - you may need to restart manually. Found in namespace: " ++ ns ++
        " as StatefulSet: " ++ sts ++ ".") := by
    simp [successMessage, String.append_assoc, hkeyW]
  rw [hmsg]
  exact strContains_here _ _ _

theorem afterScale_fst (env : Env) (service ns sts svcN : String) (cur d : Int)
    (tr : Trace) :
    ∃ rest, (afterScale env service ns sts svcN cur d tr).1 =
      tr ++ [rolloutEvent sts ns] ++ rest ∧
      ∀ ev ∈ rest, isScaleCmd ev = false := by
  cases hroll : env.rollout with
  | ret code o e =>
    by_cases hc : code = 0
    · subst hc
      refine ⟨[Event.sleep (rolloutWait service)] ++ pollTrace env svcN ns ++
        (start_port_forward env.pkillExc env.pf service ns svcN).1,
        by rw [afterScale_ok env service ns sts svcN cur d tr o e hroll]; simp, ?_⟩
      intro ev hev
      simp only [List.mem_append, List.mem_singleton] at hev
      rcases hev with (rfl | hev) | hev
      · rfl
      · rcases pollGo_mem env svcN ns ev 6 0 hev with rfl | rfl <;> rfl
      · exact pf_no_scale env.pkillExc env.pf service ns svcN ev hev
    · exact ⟨[], by simp [afterScale, hroll, hc], by intro ev hev; cases hev⟩
  | timeoutExp => exact ⟨[], by simp [afterScale, hroll], by intro ev hev; cases hev⟩
  | raised m => exact ⟨[], by simp [afterScale, hroll], by intro ev hev; cases hev⟩

theorem resolvesTo_no_scale (env : Env) (service ns sts svcN : String) (d : Int)
    (pre : Trace) (h : resolvesTo env service ns sts svcN d pre) :
    ∀ ev ∈ pre, isScaleCmd ev = false := by
  rcases h with ⟨_, _, _, _, _, hpre⟩ | ⟨_, _, _, _, _, hpre⟩ | ⟨_, _, hrest⟩
  · subst hpre; intro ev hev; cases hev
  · subst hpre; intro ev hev; cases hev
  · rcases hrest with ⟨_, hpre⟩ | ⟨_, _, _, hpre⟩ <;> subst hpre <;> intro ev hev
    · simp only [List.mem_append, List.mem_singleton] at hev
      rcases hev with rfl | hev
      · rfl
      · rcases find_mem env.loc ev hev with hb | rfl
        · exact benign5_not_scale ev hb
        · rfl
    · simp only [List.mem_append, List.mem_singleton] at hev
      rcases hev with (rfl | hev) | hev
      · rfl
      · rcases find_mem env.loc ev hev with hb | rfl
        · exact benign5_not_scale ev hb
        · rfl
      · exact benign5_not_scale ev
          (List.all_eq_true.mp (patGo_benign env common_patterns 0) ev hev)

/-- C2: for a resolved supported service whose replica read returns 0,
the orchestrator issues the scale-up command with the resolved default
replica count, sleeps the service-specific warm-up (60s for
elasticsearch, 30s otherwise) and only then issues the rollout restart;
on overall success the message contains "Scaled from 0 to <default>".
With a non-zero replica count no scale command appears in the whole
trace and the rollout restart is issued anyway.  The defaults
(vault=1, consul=3, elasticsearch=3) are fixed by `resolvesTo`. -/
theorem spec_C2_rescale_if_zero (env : Env) (service ns sts svcN : String) (d : Int)
    (pre : Trace) (hres : resolvesTo env service ns sts svcN d pre)
    (hchk : retOk env.checkSts = true) :
    (get_statefulset_replicas env.replicas = 0 →
      (∃ mid post, (remediate env service).1 = mid ++ [scaleEvent sts ns d] ++ post) ∧
      (retOk env.scale = true →
        ∃ mid post, (remediate env service).1 =
          mid ++ [scaleEvent sts ns d, Event.sleep (warmUp service),
            rolloutEvent sts ns] ++ post) ∧
      (retOk env.scale = true → retOk env.rollout = true →
        ∃ b, (remediate env service).2 =
          [{ cluster := CLUSTER_NAME, service := service, status := "success",
             message := successMessage service ns sts 0 d b }] ∧
          strContains (successMessage service ns sts 0 d b)
            ("Scaled from 0 to " ++ toString d))) ∧
    (get_statefulset_replicas env.replicas ≠ 0 →
      (∀ ev ∈ (remediate env service).1, isScaleCmd ev = false) ∧
      (∃ mid post, (remediate env service).1 = mid ++ [rolloutEvent sts ns] ++ post)) := by
  obtain ⟨o, e, hchk'⟩ := (retOk_iff env.checkSts).mp hchk
  have hbody := remediateBody_resolved env service ns sts svcN d pre hres
  constructor
  · intro hrep
    refine ⟨?_, ?_, ?_⟩
    · by_cases hs : scale_statefulset env.scale = true
      · obtain ⟨o2, e2, hs2⟩ := (retOk_iff env.scale).mp
          (by rw [← scale_eq_retOk]; exact hs)
        have hcore := remediateCore_zero_scaleOk env service ns sts svcN d pre
          o e o2 e2 hchk' hrep hs2
        obtain ⟨rest, hfst, -⟩ := afterScale_fst env service ns sts svcN 0 d
          (pre ++ [checkStsEvent sts ns, replicasEvent sts ns, scaleEvent sts ns d,
            Event.sleep (warmUp service)])
        refine ⟨pre ++ [checkStsEvent sts ns, replicasEvent sts ns],
          Event.sleep (warmUp service) :: rolloutEvent sts ns :: rest, ?_⟩
        rw [remediate_fst, hbody, hcore, hfst]
        simp
      · have hcore := remediateCore_zero_scaleFail env service ns sts svcN d pre
          o e hchk' hrep (by simpa using hs)
        refine ⟨pre ++ [checkStsEvent sts ns, replicasEvent sts ns], [], ?_⟩
        rw [remediate_fst, hbody, hcore]
        simp
    · intro hsc
      obtain ⟨o2, e2, hs2⟩ := (retOk_iff env.scale).mp hsc
      have hcore := remediateCore_zero_scaleOk env service ns sts svcN d pre
        o e o2 e2 hchk' hrep hs2
      obtain ⟨rest, hfst, -⟩ := afterScale_fst env service ns sts svcN 0 d
        (pre ++ [checkStsEvent sts ns, replicasEvent sts ns, scaleEvent sts ns d,
          Event.sleep (warmUp service)])
      refine ⟨pre ++ [checkStsEvent sts ns, replicasEvent sts ns], rest, ?_⟩
      rw [remediate_fst, hbody, hcore, hfst]
      simp
    · intro hsc hro
      obtain ⟨o2, e2, hs2⟩ := (retOk_iff env.scale).mp hsc
      obtain ⟨o3, e3, hr3⟩ := (retOk_iff env.rollout).mp hro
      have hcore := remediateCore_zero_scaleOk env service ns sts svcN d pre
        o e o2 e2 hchk' hrep hs2
      have hok := afterScale_ok env service ns sts svcN 0 d
        (pre ++ [checkStsEvent sts ns, replicasEvent sts ns, scaleEvent sts ns d,
          Event.sleep (warmUp service)]) o3 e3 hr3
      refine ⟨(start_port_forward env.pkillExc env.pf service ns svcN).2, ?_,
        successMessage_scaled_contains service ns sts d _⟩
      apply remediate_of_ok
      rw [hbody, hcore, hok]
  · intro hrep
    have hcore := remediateCore_nonzero env service ns sts svcN d pre o e hchk' hrep
    obtain ⟨rest, hfst, hrs⟩ := afterScale_fst env service ns sts svcN
      (get_statefulset_replicas env.replicas) d
      (pre ++ [checkStsEvent sts ns, replicasEvent sts ns])
    constructor
    · intro ev hev
      rw [remediate_fst, hbody, hcore, hfst] at hev
      simp only [List.append_assoc, List.mem_append, List.mem_cons,
        List.mem_singleton, List.not_mem_nil, or_false] at hev
      rcases hev with hev | hev | hev | hev
      · exact resolvesTo_no_scale env service ns sts svcN d pre hres ev hev
      · rcases hev with rfl | rfl <;> rfl
      · subst hev; rfl
      · exact hrs ev hev
    · refine ⟨pre ++ [checkStsEvent sts ns, replicasEvent sts ns], rest, ?_⟩
      rw [remediate_fst, hbody, hcore, hfst]

/-- C2 witness: vault at replica count 0 with a healthy environment
scales to 1, waits 30s, then rollout-restarts. -/
theorem spec_C2_witness :
    ∃ mid post, (remediate envVaultZero "vault").1 =
      mid ++ [scaleEvent "vault" "vault" 1, Event.sleep (warmUp "vault"),
        rolloutEvent "vault" "vault"] ++ post :=
  ((spec_C2_rescale_if_zero envVaultZero "vault" "vault" "vault" "vault" 1 []
    (Or.inl ⟨rfl, rfl, rfl, rfl, rfl, rfl⟩) (by decide)).1 (by decide)).2.1 (by decide)

/-- C10: a replica read that exits non-zero, prints nothing, prints
something unparsable, times out, or raises, yields 0 — indistinguishable
from a workload genuinely at 0 replicas — and therefore (for a resolved
service with the validation passing) triggers the scale-up to the
default replica count and, when the scale succeeds, the warm-up delay. -/
theorem spec_C10_failed_read_scales (env : Env) :
    (∀ c o e, c ≠ 0 → get_statefulset_replicas (CmdRes.ret c o e) = 0) ∧
    (∀ o e, strTrim o = "" → get_statefulset_replicas (CmdRes.ret 0 o e) = 0) ∧
    (∀ o e, parseIntStr (strTrim o) = none →
      get_statefulset_replicas (CmdRes.ret 0 o e) = 0) ∧
    get_statefulset_replicas CmdRes.timeoutExp = 0 ∧
    (∀ m, get_statefulset_replicas (CmdRes.raised m) = 0) ∧
    (∀ service ns sts svcN d pre, resolvesTo env service ns sts svcN d pre →
      retOk env.checkSts = true → get_statefulset_replicas env.replicas = 0 →
      (∃ mid post, (remediate env service).1 = mid ++ [scaleEvent sts ns d] ++ post) ∧
      (retOk env.scale = true →
        ∃ mid post, (remediate env service).1 =
          mid ++ [scaleEvent sts ns d, Event.sleep (warmUp service)] ++ post)) := by
  refine ⟨?_, ?_, ?_, rfl, fun m => rfl, ?_⟩
  · intro c o e hc
    cases c with
    | zero => exact absurd rfl hc
    | succ n => rfl
  · intro o e h
    simp [get_statefulset_replicas, h]
  · intro o e h
    by_cases ht : strTrim o = ""
    · simp [get_statefulset_replicas, ht]
    · simp [get_statefulset_replicas, ht, h]
  · intro service ns sts svcN d pre hres hchk hrep
    obtain ⟨o, e, hchk'⟩ := (retOk_iff env.checkSts).mp hchk
    have hbody := remediateBody_resolved env service ns sts svcN d pre hres
    constructor
    · by_cases hs : scale_statefulset env.scale = true
      · obtain ⟨o2, e2, hs2⟩ := (retOk_iff env.scale).mp
          (by rw [← scale_eq_retOk]; exact hs)
        have hcore := remediateCore_zero_scaleOk env service ns sts svcN d pre
          o e o2 e2 hchk' hrep hs2
        obtain ⟨rest, hfst, -⟩ := afterScale_fst env service ns sts svcN 0 d
          (pre ++ [checkStsEvent sts ns, replicasEvent sts ns, scaleEvent sts ns d,
            Event.sleep (warmUp service)])
        refine ⟨pre ++ [checkStsEvent sts ns, replicasEvent sts ns],
          Event.sleep (warmUp service) :: rolloutEvent sts ns :: rest, ?_⟩
        rw [remediate_fst, hbody, hcore, hfst]
        simp
      · have hcore := remediateCore_zero_scaleFail env service ns sts svcN d pre
          o e hchk' hrep (by simpa using hs)
        refine ⟨pre ++ [checkStsEvent sts ns, replicasEvent sts ns], [], ?_⟩
        rw [remediate_fst, hbody, hcore]
        simp
    · intro hsc
      obtain ⟨o2, e2, hs2⟩ := (retOk_iff env.scale).mp hsc
      have hcore := remediateCore_zero_scaleOk env service ns sts svcN d pre
        o e o2 e2 hchk' hrep hs2
      obtain ⟨rest, hfst, -⟩ := afterScale_fst env service ns sts svcN 0 d
        (pre ++ [checkStsEvent sts ns, replicasEvent sts ns, scaleEvent sts ns d,
          Event.sleep (warmUp service)])
      refine ⟨pre ++ [checkStsEvent sts ns, replicasEvent sts ns],
        rolloutEvent sts ns :: rest, ?_⟩
      rw [remediate_fst, hbody, hcore, hfst]
      simp

/-- An otherwise healthy vault environment whose replica read times out. -/
def envReadFail : Env :=
  { envVaultZero with replicas := CmdRes.timeoutExp }

/-- C10 witness: with the replica read timing out, vault is scaled up to
its default and the warm-up delay happens. -/
theorem spec_C10_witness :
    ∃ mid post, (remediate envReadFail "vault").1 =
      mid ++ [scaleEvent "vault" "vault" 1, Event.sleep (warmUp "vault")] ++ post :=
  ((spec_C10_failed_read_scales envReadFail).2.2.2.2.2 "vault" "vault" "vault" "vault" 1 []
    (Or.inl ⟨rfl, rfl, rfl, rfl, rfl, rfl⟩) (by decide) (by decide)).2 (by decide)

/-! ## Outcome-status helpers and independence from tunnel / poll results -/

/-- The statuses an invocation appends, given the body's result. -/
def outcomeStatuses : Except PyExc (List Entry) → List String
  | .ok es => es.map Entry.status
  | .error _ => ["failed"]

theorem remediate_statuses (env : Env) (service : String) :
    ((remediate env service).2).map Entry.status =
      outcomeStatuses (remediateBody env service).2 := by
  cases h : (remediateBody env service).2 with
  | ok es => rw [remediate_of_ok env service es h]; rfl
  | error ex => rw [remediate_of_error env service ex h]; rfl

theorem afterScale_statuses_pf (env : Env) (p : PFRes) (k : Bool)
    (service ns sts svcN : String) (cur d : Int) (tr tr' : Trace) :
    outcomeStatuses (afterScale { env with pf := p, pkillExc := k }
        service ns sts svcN cur d tr').2 =
      outcomeStatuses (afterScale env service ns sts svcN cur d tr).2 := by
  cases hroll : env.rollout with
  | ret code o e =>
    by_cases hc : code = 0
    · subst hc
      simp [afterScale, hroll, outcomeStatuses]
    · simp [afterScale, hroll, hc, outcomeStatuses]
  | timeoutExp => simp [afterScale, hroll, outcomeStatuses]
  | raised m => simp [afterScale, hroll, outcomeStatuses]

theorem core_statuses_pf (env : Env) (p : PFRes) (k : Bool)
    (service ns sts svcN : String) (d : Int) (tr tr' : Trace) :
    outcomeStatuses (remediateCore { env with pf := p, pkillExc := k }
        service ns sts svcN d tr').2 =
      outcomeStatuses (remediateCore env service ns sts svcN d tr).2 := by
  cases hchk : env.checkSts with
  | ret code o e =>
    by_cases hc : code = 0
    · subst hc
      by_cases hrep : get_statefulset_replicas env.replicas = 0
      · by_cases hsc : scale_statefulset env.scale = true
        · simp only [remediateCore, hchk, hrep, hsc, if_pos rfl, ite_true,
            ite_false, ne_eq, not_true_eq_false]
          exact afterScale_statuses_pf env p k service ns sts svcN 0 d _ _
        · simp [remediateCore, hchk, hrep, hsc, outcomeStatuses]
      · simp only [remediateCore, hchk, hrep]
        simp only [ne_eq, not_false_eq_true, if_neg hrep, ite_false, ite_true,
          reduceIte, not_true_eq_false]
        exact afterScale_statuses_pf env p k service ns sts svcN
          (get_statefulset_replicas env.replicas) d _ _
    · simp [remediateCore, hchk, hc, outcomeStatuses]
  | timeoutExp => simp [remediateCore, hchk, outcomeStatuses]
  | raised m => simp [remediateCore, hchk, outcomeStatuses]

theorem body_statuses_pf (env : Env) (p : PFRes) (k : Bool) (service : String) :
    outcomeStatuses (remediateBody { env with pf := p, pkillExc := k } service).2 =
      outcomeStatuses (remediateBody env service).2 := by
  have hFind : find_elasticsearch_resources
      ({ env with pf := p, pkillExc := k } : Env).loc =
      find_elasticsearch_resources env.loc := rfl
  have hTry : tryPatterns { env with pf := p, pkillExc := k } = tryPatterns env := rfl
  by_cases h1 : service = "vault"
  · subst h1
    simp only [remediateBody, if_pos rfl]
    exact core_statuses_pf env p k "vault" "vault" "vault" "vault" 1 [] []
  · by_cases h2 : service = "consul"
    · subst h2
      simp only [remediateBody, h1, if_neg, if_pos rfl, reduceIte]
      exact core_statuses_pf env p k "consul" "consul" "consul-server" "consul-server" 3 [] []
    · by_cases h3 : service = "elasticsearch"
      · subst h3
        simp only [remediateBody, reduceIte, hFind, hTry]
        cases hfind : (find_elasticsearch_resources env.loc).2 with
        | some x =>
          exact core_statuses_pf env p k "elasticsearch" x.1 x.2.1 x.2.2 3 _ _
        | none =>
          cases hpat : (tryPatterns env).2 with
          | some y =>
            exact core_statuses_pf env p k "elasticsearch" y.1 y.2 y.2 3 _ _
          | none => rfl
      · simp only [remediateBody, h1, h2, h3, if_neg, reduceIte]

/-- C5: the port-forward restore is soft.  First conjunct: for every
environment and service the appended statuses do not depend on the
tunnel oracle at all, so a tunnel failure can never turn a success into
a failed outcome.  Second conjunct: on a successful attempt whose
port-forward start fails, the single outcome is a success whose message
carries the port-forward warning. -/
theorem spec_C5_tunnel_soft :
    (∀ (env : Env) (service : String) (p : PFRes) (k : Bool),
      ((remediate { env with pf := p, pkillExc := k } service).2).map Entry.status =
        ((remediate env service).2).map Entry.status) ∧
    (∀ (env : Env) (service ns sts svcN : String) (d : Int) (pre : Trace),
      resolvesTo env service ns sts svcN d pre →
      retOk env.checkSts = true →
      (get_statefulset_replicas env.replicas = 0 → retOk env.scale = true) →
      retOk env.rollout = true →
      (start_port_forward env.pkillExc env.pf service ns svcN).2 = false →
      ∃ e, (remediate env service).2 = [e] ∧ e.status = "success" ∧
        strContains e.message "Warning: Failed to restart port-forward") := by
  constructor
  · intro env service p k
    rw [remediate_statuses, remediate_statuses]
    exact body_statuses_pf env p k service
  · intro env service ns sts svcN d pre hres hchk hscCond hro hpf
    obtain ⟨o, e, hchk'⟩ := (retOk_iff env.checkSts).mp hchk
    obtain ⟨o3, e3, hr3⟩ := (retOk_iff env.rollout).mp hro
    have hbody := remediateBody_resolved env service ns sts svcN d pre hres
    by_cases hrep : get_statefulset_replicas env.replicas = 0
    · obtain ⟨o2, e2, hs2⟩ := (retOk_iff env.scale).mp (hscCond hrep)
      have hcore := remediateCore_zero_scaleOk env service ns sts svcN d pre
        o e o2 e2 hchk' hrep hs2
      have hok := afterScale_ok env service ns sts svcN 0 d
        (pre ++ [checkStsEvent sts ns, replicasEvent sts ns, scaleEvent sts ns d,
          Event.sleep (warmUp service)]) o3 e3 hr3
      refine ⟨_, remediate_of_ok env service _ (by rw [hbody, hcore, hok]), rfl, ?_⟩
      rw [hpf]
      exact successMessage_warning_contains service ns sts 0 d
    · have hcore := remediateCore_nonzero env service ns sts svcN d pre o e hchk' hrep
      have hok := afterScale_ok env service ns sts svcN
        (get_statefulset_replicas env.replicas) d
        (pre ++ [checkStsEvent sts ns, replicasEvent sts ns]) o3 e3 hr3
      refine ⟨_, remediate_of_ok env service _ (by rw [hbody, hcore, hok]), rfl, ?_⟩
      rw [hpf]
      exact successMessage_warning_contains service ns sts
        (get_statefulset_replicas env.replicas) d

/-- A healthy vault environment whose fresh port-forward dies at once. -/
def envPfFail : Env := { envVaultZero with pf := PFRes.died }

/-- C5 witness: with the tunnel failing, vault remediation still
succeeds and the message carries the warning. -/
theorem spec_C5_witness :
    ∃ e, (remediate envPfFail "vault").2 = [e] ∧ e.status = "success" ∧
      strContains e.message "Warning: Failed to restart port-forward" :=
  spec_C5_tunnel_soft.2 envPfFail "vault" "vault" "vault" "vault" 1 []
    (Or.inl ⟨rfl, rfl, rfl, rfl, rfl, rfl⟩) (by decide) (fun _ => by decide)
    (by decide) (by decide)

/-! ## Await-ready stage: poll bounds and outcome independence -/

/-- A readiness-poll command (`kubectl get svc ...`). -/
def isPollCmd : Event → Bool
  | .run ("kubectl" :: "get" :: "svc" :: _ :: "-n" :: _) _ => true
  | _ => false

theorem pollGo_count (env : Env) (svcN ns : String) :
    ∀ rem i, (pollGo env svcN ns i rem).countP isPollCmd ≤ rem := by
  intro rem
  induction rem with
  | zero => intro i; simp [pollGo]
  | succ n ih =>
    intro i
    simp only [pollGo]
    cases hp : env.poll i with
    | ret code o e =>
      cases code with
      | zero =>
        simp [List.countP_cons, isPollCmd, pollEvent]
      | succ c =>
        have := ih (i + 1)
        simp [List.countP_cons, isPollCmd, pollEvent] at this ⊢
        omega
    | timeoutExp =>
      have := ih (i + 1)
      simp [List.countP_cons, isPollCmd, pollEvent] at this ⊢
      omega
    | raised m =>
      have := ih (i + 1)
      simp [List.countP_cons, isPollCmd, pollEvent] at this ⊢
      omega

theorem afterScale_snd_poll (env : Env) (q : Nat → CmdRes)
    (service ns sts svcN : String) (cur d : Int) (tr tr' : Trace) :
    (afterScale { env with poll := q } service ns sts svcN cur d tr').2 =
      (afterScale env service ns sts svcN cur d tr).2 := by
  cases hroll : env.rollout with
  | ret code o e =>
    by_cases hc : code = 0
    · subst hc
      simp [afterScale, hroll]
    · simp [afterScale, hroll, hc]
  | timeoutExp => simp [afterScale, hroll]
  | raised m => simp [afterScale, hroll]

theorem core_snd_poll (env : Env) (q : Nat → CmdRes)
    (service ns sts svcN : String) (d : Int) (tr tr' : Trace) :
    (remediateCore { env with poll := q } service ns sts svcN d tr').2 =
      (remediateCore env service ns sts svcN d tr).2 := by
  cases hchk : env.checkSts with
  | ret code o e =>
    by_cases hc : code = 0
    · subst hc
      by_cases hrep : get_statefulset_replicas env.replicas = 0
      · by_cases hsc : scale_statefulset env.scale = true
        · simp only [remediateCore, hchk, hrep, hsc, if_pos rfl, ite_true,
            ite_false, ne_eq, not_true_eq_false]
          exact afterScale_snd_poll env q service ns sts svcN 0 d _ _
        · simp [remediateCore, hchk, hrep, hsc]
      · simp only [remediateCore, hchk, hrep]
        simp only [ne_eq, not_false_eq_true, if_neg hrep, ite_false, ite_true,
          reduceIte, not_true_eq_false]
        exact afterScale_snd_poll env q service ns sts svcN
          (get_statefulset_replicas env.replicas) d _ _
    · simp [remediateCore, hchk, hc]
  | timeoutExp => simp [remediateCore, hchk]
  | raised m => simp [remediateCore, hchk]

theorem body_snd_poll (env : Env) (q : Nat → CmdRes) (service : String) :
    (remediateBody { env with poll := q } service).2 =
      (remediateBody env service).2 := by
  have hFind : find_elasticsearch_resources ({ env with poll := q } : Env).loc =
      find_elasticsearch_resources env.loc := rfl
  have hTry : tryPatterns { env with poll := q } = tryPatterns env := rfl
  by_cases h1 : service = "vault"
  · subst h1
    simp only [remediateBody, if_pos rfl]
    exact core_snd_poll env q "vault" "vault" "vault" "vault" 1 [] []
  · by_cases h2 : service = "consul"
    · subst h2
      simp only [remediateBody, h1, if_neg, if_pos rfl, reduceIte]
      exact core_snd_poll env q "consul" "consul" "consul-server" "consul-server" 3 [] []
    · by_cases h3 : service = "elasticsearch"
      · subst h3
        simp only [remediateBody, reduceIte, hFind, hTry]
        cases hfind : (find_elasticsearch_resources env.loc).2 with
        | some x =>
          exact core_snd_poll env q "elasticsearch" x.1 x.2.1 x.2.2 3 _ _
        | none =>
          cases hpat : (tryPatterns env).2 with
          | some y =>
            exact core_snd_poll env q "elasticsearch" y.1 y.2 y.2 3 _ _
          | none => rfl
      · simp only [remediateBody, h1, h2, h3, if_neg, reduceIte]

theorem remediate_snd_poll (env : Env) (q : Nat → CmdRes) (service : String) :
    (remediate { env with poll := q } service).2 = (remediate env service).2 := by
  have hb := body_snd_poll env q service
  cases h : (remediateBody env service).2 with
  | ok es =>
    rw [remediate_of_ok env service es h,
      remediate_of_ok { env with poll := q } service es (by rw [hb, h])]
  | error ex =>
    rw [remediate_of_error env service ex h,
      remediate_of_error { env with poll := q } service ex (by rw [hb, h])]

/-- C6 amended: the await-ready stage polls the endpoint at most 6
times (each event is a poll command or a 10s sleep) between the
post-rollout wait and the tunnel-restore trace, and polling exhaustion
does not fail the attempt: the appended outcome — message included — is
identical for every poll oracle, so no readiness caveat is recorded
(this last point is where the original claim fails). -/
theorem spec_C6_poll_soft (env : Env) (service ns sts svcN : String) (d : Int)
    (pre : Trace) (hres : resolvesTo env service ns sts svcN d pre)
    (hchk : retOk env.checkSts = true)
    (hscCond : get_statefulset_replicas env.replicas = 0 → retOk env.scale = true)
    (hro : retOk env.rollout = true) :
    (∃ pre2, (remediate env service).1 =
      pre2 ++ [rolloutEvent sts ns, Event.sleep (rolloutWait service)] ++
        pollTrace env svcN ns ++
        (start_port_forward env.pkillExc env.pf service ns svcN).1) ∧
    ((pollTrace env svcN ns).countP isPollCmd ≤ 6 ∧
      ∀ ev ∈ pollTrace env svcN ns, ev = pollEvent svcN ns ∨ ev = Event.sleep 10) ∧
    (∀ q, (remediate { env with poll := q } service).2 = (remediate env service).2) := by
  obtain ⟨o, e, hchk'⟩ := (retOk_iff env.checkSts).mp hchk
  obtain ⟨o3, e3, hr3⟩ := (retOk_iff env.rollout).mp hro
  have hbody := remediateBody_resolved env service ns sts svcN d pre hres
  refine ⟨?_, ⟨pollGo_count env svcN ns 6 0, fun ev hev => pollGo_mem env svcN ns ev 6 0 hev⟩,
    fun q => remediate_snd_poll env q service⟩
  by_cases hrep : get_statefulset_replicas env.replicas = 0
  · obtain ⟨o2, e2, hs2⟩ := (retOk_iff env.scale).mp (hscCond hrep)
    have hcore := remediateCore_zero_scaleOk env service ns sts svcN d pre
      o e o2 e2 hchk' hrep hs2
    have hok := afterScale_ok env service ns sts svcN 0 d
      (pre ++ [checkStsEvent sts ns, replicasEvent sts ns, scaleEvent sts ns d,
        Event.sleep (warmUp service)]) o3 e3 hr3
    refine ⟨pre ++ [checkStsEvent sts ns, replicasEvent sts ns, scaleEvent sts ns d,
      Event.sleep (warmUp service)], ?_⟩
    rw [remediate_fst, hbody, hcore, hok]
  · have hcore := remediateCore_nonzero env service ns sts svcN d pre o e hchk' hrep
    have hok := afterScale_ok env service ns sts svcN
      (get_statefulset_replicas env.replicas) d
      (pre ++ [checkStsEvent sts ns, replicasEvent sts ns]) o3 e3 hr3
    refine ⟨pre ++ [checkStsEvent sts ns, replicasEvent sts ns], ?_⟩
    rw [remediate_fst, hbody, hcore, hok]

/-- A healthy vault environment in which every readiness poll fails. -/
def envPollFail : Env := { envVaultZero with poll := fun _ => failCmd }

/-- C6 witness: the outcome with every poll failing equals the outcome
with every poll succeeding; the trace still proceeds through the
tunnel-restore events. -/
theorem spec_C6_witness :
    (remediate { envVaultZero with poll := fun _ => failCmd } "vault").2 =
      (remediate envVaultZero "vault").2 :=
  (spec_C6_poll_soft envVaultZero "vault" "vault" "vault" "vault" 1 []
    (Or.inl ⟨rfl, rfl, rfl, rfl, rfl, rfl⟩) (by decide) (fun _ => by decide)
    (by decide)).2.2 (fun _ => failCmd)

set_option maxRecDepth 8192 in
/-- C6 counterexample: an environment whose six readiness polls all fail
produces exactly the same outcome — message included — as one whose
first poll succeeds, so the eventual message cannot note any caveat
about unconfirmed readiness; the six failed polls are visible in the
trace (six poll commands). -/
theorem spec_C6_counterexample :
    (remediate envPollFail "vault").2 = (remediate envVaultZero "vault").2 ∧
    (pollTrace envPollFail "vault" "vault").countP isPollCmd = 6 ∧
    (pollTrace envVaultZero "vault" "vault").countP isPollCmd = 1 := by
  exact ⟨by decide, by decide, by decide⟩

/-! ## Resolution failure (C4) -/

set_option maxRecDepth 8192 in
/-- C4 counterexample: when nothing exists, the failed outcome's message
is the fixed fallback text, which lists only the three
`common_patterns` pairs; it does not mention the locator's
`default/elasticsearch` or `logging/elasticsearch` candidates, so it
does not enumerate all 6 candidate combinations. -/
theorem spec_C4_counterexample :
    (remediate envNotFound "elasticsearch").2 =
      [{ cluster := CLUSTER_NAME, service := "elasticsearch", status := "failed",
         message := "Unexpected error during remediation: " ++ esNotFoundMsg }] ∧
    ¬ strContains ("Unexpected error during remediation: " ++ esNotFoundMsg)
        "default/elasticsearch" ∧
    ¬ strContains ("Unexpected error during remediation: " ++ esNotFoundMsg)
        "logging/elasticsearch" := by
  exact ⟨by decide, by decide, by decide⟩

/-- C4 amended: if the locator and the common-pattern fallback both come
up empty, `remediate("elasticsearch")` appends one failed outcome whose
message enumerates the three common-pattern `(namespace, workload)`
pairs (`elasticsearch/elasticsearch-master` twice and
`elasticsearch/elasticsearch`), not all 6 locator candidates. -/
theorem spec_C4_amended (env : Env)
    (hfind : (find_elasticsearch_resources env.loc).2 = none)
    (hpat : (tryPatterns env).2 = none) :
    (remediate env "elasticsearch").2 =
      [{ cluster := CLUSTER_NAME, service := "elasticsearch", status := "failed",
         message := "Unexpected error during remediation: " ++ esNotFoundMsg }] ∧
    strContains esNotFoundMsg "elasticsearch/elasticsearch-master" ∧
    strContains esNotFoundMsg "elasticsearch/elasticsearch" := by
  refine ⟨?_, by decide, by decide⟩
  have hb : (remediateBody env "elasticsearch").2 =
      Except.error (PyExc.other esNotFoundMsg) := by
    simp [remediateBody, hfind, hpat]
  exact remediate_of_error env "elasticsearch" (PyExc.other esNotFoundMsg) hb

set_option maxRecDepth 8192 in
/-- C4 witness: the amended statement at the concrete empty cluster. -/
theorem spec_C4_witness :
    (remediate envNotFound "elasticsearch").2 =
      [{ cluster := CLUSTER_NAME, service := "elasticsearch", status := "failed",
         message := "Unexpected error during remediation: " ++ esNotFoundMsg }] :=
  (spec_C4_amended envNotFound (by decide) (by decide)).1

/-! ## C8: the locator against the claim's selection rule -/

theorem isRet_iff (r : CmdRes) : isRet r = true ↔ ∃ c o e, r = CmdRes.ret c o e := by
  cases r with
  | ret c o e => simp [isRet]
  | timeoutExp => simp [isRet]
  | raised m => simp [isRet]

/-- Spec-side reformulation of the claim's selection rule: the first
candidate whose namespace and workload both exist wins; its endpoint is
the declared name if that service exists, else the first listed endpoint
whose name contains `elasticsearch`, else the workload name. -/
def specCandidate (env : LocEnv) (a i : Nat) (c : String × String × String) :
    Option (String × String × String) :=
  if retOk (env.ns a i) && retOk (env.sts a i) then
    some (if retOk (env.svc a i) then c
          else match env.svcList a i with
            | .ret 0 out _ =>
              match pickEsLine (linesOf out) with
              | some n => (c.1, c.2.1, n)
              | none => (c.1, c.2.1, c.2.1)
            | _ => (c.1, c.2.1, c.2.1))
  else none

/-- Spec-side scan: first hit over the ordered candidate list. -/
def specScanGo (env : LocEnv) (a : Nat) : Nat → List (String × String × String) →
    Option (String × String × String)
  | _, [] => none
  | i, c :: rest =>
    match specCandidate env a i c with
    | some x => some x
    | none => specScanGo env a (i + 1) rest

/-- Spec-side locator: at most 3 rounds, first hit wins, exhaustion is
`none`. -/
def locatorSpec (env : LocEnv) : Option (String × String × String) :=
  match specScanGo env 0 0 searchConfigs with
  | some x => some x
  | none =>
    match specScanGo env 1 0 searchConfigs with
    | some x => some x
    | none => specScanGo env 2 0 searchConfigs

/-- No kubectl call of the locator raises (completes with some exit code). -/
def noRaiseLoc (env : LocEnv) : Prop :=
  ∀ a i, isRet (env.ns a i) = true ∧ isRet (env.sts a i) = true ∧
    isRet (env.svc a i) = true ∧ isRet (env.svcList a i) = true

theorem tryCandidate_spec (env : LocEnv) (a i : Nat) (c : String × String × String)
    (hns : isRet (env.ns a i) = true) (hsts : isRet (env.sts a i) = true)
    (hsvc : isRet (env.svc a i) = true) (hlist : isRet (env.svcList a i) = true) :
    (tryCandidate env a i c).2 = specCandidate env a i c := by
  obtain ⟨c1, o1, e1, h1⟩ := (isRet_iff (env.ns a i)).mp hns
  obtain ⟨c2, o2, e2, h2⟩ := (isRet_iff (env.sts a i)).mp hsts
  obtain ⟨c3, o3, e3, h3⟩ := (isRet_iff (env.svc a i)).mp hsvc
  obtain ⟨c4, o4, e4, h4⟩ := (isRet_iff (env.svcList a i)).mp hlist
  cases c1 with
  | succ m1 => simp [tryCandidate, specCandidate, h1, retOk]
  | zero =>
    cases c2 with
    | succ m2 => simp [tryCandidate, specCandidate, h1, h2, retOk]
    | zero =>
      cases c3 with
      | zero => simp [tryCandidate, specCandidate, h1, h2, h3, retOk]
      | succ m3 =>
        cases c4 with
        | zero =>
          simp only [tryCandidate, specCandidate, h1, h2, h3, h4, retOk]
          simp only [Bool.and_true, Bool.true_and, if_true, if_false,
            Bool.false_eq_true, reduceIte]
          cases hp : pickEsLine (linesOf o4) <;> simp [hp]
        | succ m4 =>
          simp only [tryCandidate, specCandidate, h1, h2, h3, h4, retOk]
          simp
  
theorem scanGo_spec (env : LocEnv) (a : Nat) (h : noRaiseLoc env) :
    ∀ (l : List (String × String × String)) (i : Nat),
      (scanGo env a i l).2 = specScanGo env a i l := by
  intro l
  induction l with
  | nil => intro i; rfl
  | cons c rest ih =>
    intro i
    obtain ⟨hns, hsts, hsvc, hlist⟩ := h a i
    have ht := tryCandidate_spec env a i c hns hsts hsvc hlist
    simp only [scanGo, specScanGo, ht]
    cases hc : specCandidate env a i c with
    | some x => rfl
    | none => simpa using ih (i + 1)

theorem find_spec (env : LocEnv) (h : noRaiseLoc env) :
    (find_elasticsearch_resources env).2 = locatorSpec env := by
  have e0 := scanGo_spec env 0 h searchConfigs 0
  have e1 := scanGo_spec env 1 h searchConfigs 0
  have e2 := scanGo_spec env 2 h searchConfigs 0
  simp only [find_elasticsearch_resources, locatorSpec, ← e0, ← e1, ← e2]
  cases h0 : (scanGo env 0 0 searchConfigs).2 with
  | some x => rfl
  | none =>
    cases h1 : (scanGo env 1 0 searchConfigs).2 with
    | some x => rfl
    | none => rfl

theorem scanGo_no_sleep (env : LocEnv) (a : Nat)
    (l : List (String × String × String)) (i : Nat) :
    ((scanGo env a i l).1).countP isSleep = 0 := by
  rw [List.countP_eq_zero]
  intro ev hev
  have hb := List.all_eq_true.mp (scanGo_benign env a l i) ev hev
  simp [benign5_not_sleep ev hb]

/-- C8: (a) whenever none of the locator's kubectl calls raises, the
value it returns is exactly the claim's selection rule (`locatorSpec`):
first candidate of the earliest round whose namespace and workload
exist, endpoint per declared-name / substring-match / workload-name
fallback, and `none` (the source's `(None, None, None)`) on exhaustion;
(b) every command in its trace carries the 5s timeout; (c) every pause
is the 5s between-round pause; (d) there are at most 2 such pauses
(hence at most 3 rounds). -/
theorem spec_C8_locator (env : LocEnv) :
    (noRaiseLoc env → (find_elasticsearch_resources env).2 = locatorSpec env) ∧
    (∀ args t, Event.run args t ∈ (find_elasticsearch_resources env).1 →
      t = some 5) ∧
    (∀ n, Event.sleep n ∈ (find_elasticsearch_resources env).1 → n = 5) ∧
    (find_elasticsearch_resources env).1.countP isSleep ≤ 2 := by
  refine ⟨find_spec env, ?_, ?_, ?_⟩
  · intro args t hmem
    rcases find_mem env _ hmem with hb | heq
    · exact benign5_timeout _ hb args t rfl
    · cases heq
  · intro n hmem
    rcases find_mem env _ hmem with hb | heq
    · simp [benign5] at hb
    · cases heq
      rfl
  · simp only [find_elasticsearch_resources]
    cases h0 : (scanGo env 0 0 searchConfigs).2 with
    | some x =>
      simp [scanGo_no_sleep env 0 searchConfigs 0]
    | none =>
      cases h1 : (scanGo env 1 0 searchConfigs).2 with
      | some x =>
        simp [List.countP_append, scanGo_no_sleep env 0 searchConfigs 0,
          scanGo_no_sleep env 1 searchConfigs 0, isSleep]
      | none =>
        simp [List.countP_append, scanGo_no_sleep env 0 searchConfigs 0,
          scanGo_no_sleep env 1 searchConfigs 0,
          scanGo_no_sleep env 2 searchConfigs 0, isSleep]

/-- C8 witness: with every call succeeding, the first candidate of
round 0 wins, matching the spec-side rule. -/
theorem spec_C8_witness :
    (find_elasticsearch_resources locAllOk).2 = locatorSpec locAllOk ∧
    (find_elasticsearch_resources locAllOk).2 =
      some ("elasticsearch", "elasticsearch-master", "elasticsearch-master") :=
  ⟨(spec_C8_locator locAllOk).1 (fun a i => ⟨rfl, rfl, rfl, rfl⟩), by decide⟩
